import Mathlib

/-!
Verification of the synchronization engine of `obsidian-git-sync`.

The development is a shallow embedding of the two core layers of the
repository:

* `GitExecutor` (src/git/executor.ts): a typed runner of git subcommands.
  Each method is embedded as a function in the monad `M`, which threads the
  list of backend commands issued so far (the *trace*) and short-circuits
  on a thrown `GitError`.  The external process substrate is abstracted as
  a `Backend`: a function from the trace so far and the command text to the
  command's outcome, exactly the information `child_process.exec` returns.

* `SyncManager` (src/sync/sync-manager.ts): the orchestrator.  Its methods
  are embedded in the monad `SM`, which additionally threads the manager's
  mutable fields (`syncLock`, `lastSyncTime`, `lastSyncResult`) and the
  stream of `(status, message)` pairs emitted through the status callback.
  `new Date()` is modelled by an explicit `now : Nat` argument and the
  commit message produced by `generateCommitMessage` by an explicit
  `commitMsg : String` argument.

The plugin entry points of `main.ts` (`sync`, `pull`, `commitAndPush`) are
embedded as `Plugin.sync` etc.; their `showNotice` calls are collected in a
list of notices.

String helpers (`trimStr`, `linesOf`, `containsStr`, ...) re-implement the
exact JavaScript semantics used by the source (`String.prototype.trim`,
`split`, `includes`) over `List Char` so that everything reduces inside the
kernel.
-/

/-! ## String utilities (JavaScript semantics) -/

/-- Does `p` occur as a prefix of `cs`?  (`startsWith` on char lists). -/
def startsWithL : List Char → List Char → Bool
  | [], _ => true
  | _ :: _, [] => false
  | p :: ps, c :: cs => p == c && startsWithL ps cs

/-- JavaScript `String.prototype.includes`: `pat` occurs somewhere in `cs`. -/
def hasInfixL (pat : List Char) : List Char → Bool
  | [] => startsWithL pat []
  | c :: rest => startsWithL pat (c :: rest) || hasInfixL pat rest

/-- `s.includes(pat)` of JavaScript. -/
def containsStr (s pat : String) : Bool :=
  hasInfixL pat.data s.data

/-- `String.prototype.trim`: drop leading and trailing whitespace. -/
def trimStr (s : String) : String :=
  String.mk (((s.data.dropWhile Char.isWhitespace).reverse.dropWhile Char.isWhitespace).reverse)

/-- `String.prototype.split('\n')` on char lists (keeps empty pieces, as JS does). -/
def splitChar (c : Char) : List Char → List (List Char)
  | [] => [[]]
  | ch :: rest =>
    let r := splitChar c rest
    if ch == c then [] :: r
    else
      match r with
      | [] => [[ch]]
      | g :: gs => (ch :: g) :: gs

/-- `s.split('\n')`. -/
def linesOf (s : String) : List String :=
  (splitChar '\n' s.data).map String.mk

/-- Value of a run of decimal digits (`parseInt` on a digit-only capture). -/
def digitsVal (ds : List Char) : Nat :=
  ds.foldl (fun n c => n * 10 + (c.toNat - 48)) 0

/-! ## Data model (src/git/types.ts) -/

/-- `GitStatus` of src/git/types.ts. -/
structure GitStatus where
  isRepo : Bool
  branch : String
  ahead : Nat
  behind : Nat
  staged : List String
  modified : List String
  untracked : List String
  conflicts : List String
  clean : Bool
deriving DecidableEq, Repr

/-- `GitError` of src/git/types.ts: the structured error thrown by `run`
(`message`, optional `code`, captured `stderr` / `stdout`). -/
structure GitError where
  message : String
  code : Option String
  stderr : String
  stdout : String
deriving DecidableEq, Repr

/-- `SyncResult` of src/git/types.ts (optional fields become `Option`). -/
structure SyncResult where
  success : Bool
  message : String
  pulled : Option Nat
  pushed : Option Nat
  conflicts : Option (List String)
deriving DecidableEq, Repr

/-- `PullResult` of src/git/types.ts. -/
structure PullResult where
  success : Bool
  message : String
  files : List String
  conflicts : List String
deriving DecidableEq, Repr

/-- `PushResult` of src/git/types.ts. -/
structure PushResult where
  success : Bool
  message : String
  pushed : Nat
deriving DecidableEq, Repr

/-- `CommitResult` of src/git/types.ts. -/
structure CommitResult where
  success : Bool
  message : String
  files : Nat
deriving DecidableEq, Repr

/-- The `SyncStatus` union type of src/git/types.ts. -/
inductive SyncStatus where
  | idle | syncing | pulling | pushing | committing | error | conflict | success
deriving DecidableEq, Repr

/-- What `exec` resolves with on success: captured stdout and stderr. -/
structure ExecResult where
  stdout : String
  stderr : String
deriving DecidableEq, Repr

/-! ## Parsing the porcelain status output (`GitExecutor.status`) -/

/-- `line[0]` of a status line (JS indexing: `none` models `undefined`). -/
def idxChar (l : String) : Option Char := l.data.get? 0

/-- `line[1]` of a status line. -/
def wtChar (l : String) : Option Char := l.data.get? 1

/-- `line.substring(3)`: the file name of a porcelain status line. -/
def fileNameOf (l : String) : String := String.mk (l.data.drop 3)

/-- The conflict test of `GitExecutor.status`: either code is `U`, or the
pair is `AA`, or the pair is `DD`. -/
def isConflictLine (l : String) : Bool :=
  idxChar l == some 'U' || wtChar l == some 'U' ||
  (idxChar l == some 'A' && wtChar l == some 'A') ||
  (idxChar l == some 'D' && wtChar l == some 'D')

/-- Staged test of `GitExecutor.status`: index code neither space nor `?`
(JS `!==` also holds for a missing character, modelled by `none`). -/
def isStagedLine (l : String) : Bool :=
  idxChar l != some ' ' && idxChar l != some '?'

/-- Modified test of `GitExecutor.status`: work-tree code neither space nor `?`. -/
def isModifiedLine (l : String) : Bool :=
  wtChar l != some ' ' && wtChar l != some '?'

/-- Untracked test of `GitExecutor.status`: the pair is `??`. -/
def isUntrackedLine (l : String) : Bool :=
  idxChar l == some '?' && wtChar l == some '?'

/-- `result.stdout.trim().split('\n').filter(Boolean)` of `GitExecutor.status`. -/
def allLines (stdout : String) : List String :=
  (linesOf (trimStr stdout)).filter (fun l => l ≠ "")

/-- The file-status lines (`lines.slice(1)`). -/
def statusLines (stdout : String) : List String :=
  (allLines stdout).drop 1

/-! Embedding of the branch-summary regex of `GitExecutor.status`:
`^## (?:No branch|\S+)(?:\.\.\.\S+)?(?:\s+\[(?:ahead (\d+))?(?:, )?(?:behind (\d+))?\])?`.
Every part after `## ` plus a nonempty name is optional, so the regex
engine never backtracks across groups: the name is the literal `No branch`
when present, else the maximal nonempty run of non-whitespace; the dots
group consumes `...` plus a maximal nonempty non-whitespace run when it
can; the bracket group contributes the two captures when it matches and is
skipped otherwise.  Inside the bracket the optional pieces are tried
greedily with backtracking, embedded below by trying the alternatives in
the engine's order (`orO` is first-some). -/

/-- First-`some` choice, the order in which the regex engine tries an
optional group: attempt first, skip second. -/
def orO (x y : Option α) : Option α :=
  match x with
  | some v => some v
  | none => y

/-- The closing `\]` of the bracket group (the regex is not end-anchored,
so trailing characters are allowed). -/
def closeBr (ae be : Nat) : List Char → Option (Nat × Nat)
  | ']' :: _ => some (ae, be)
  | _ => none

/-- After the optional `, `: the optional `behind (\d+)` then `\]`. -/
def afterComma (ae : Nat) (cs : List Char) : Option (Nat × Nat) :=
  orO
    (if startsWithL "behind ".data cs then
      let tl := cs.drop 7
      let ds := tl.takeWhile Char.isDigit
      if ds.isEmpty then none else closeBr ae (digitsVal ds) (tl.drop ds.length)
    else none)
    (closeBr ae 0 cs)

/-- After the optional `ahead (\d+)`: the optional `, ` then the rest. -/
def afterAhead (ae : Nat) (cs : List Char) : Option (Nat × Nat) :=
  orO
    (if startsWithL ", ".data cs then afterComma ae (cs.drop 2) else none)
    (afterComma ae cs)

/-- Body of the bracket group, after `\[`. -/
def bracketBody (cs : List Char) : Option (Nat × Nat) :=
  orO
    (if startsWithL "ahead ".data cs then
      let tl := cs.drop 6
      let ds := tl.takeWhile Char.isDigit
      if ds.isEmpty then none else afterAhead (digitsVal ds) (tl.drop ds.length)
    else none)
    (afterAhead 0 cs)

/-- The optional `\s+\[...\]` group.  `\s+` is greedy and `[` is not
whitespace, so only the maximal whitespace run can precede the bracket. -/
def matchBracket (cs : List Char) : Option (Nat × Nat) :=
  let ws := cs.takeWhile Char.isWhitespace
  if ws.isEmpty then none
  else
    match cs.drop ws.length with
    | '[' :: rest => bracketBody rest
    | _ => none

/-- The `(ahead, behind)` captures of the branch-summary regex; `(0, 0)`
when the regex does not match or a capture group is absent
(`branchMatch?.[1] ? parseInt(...) : 0`). -/
def parseAheadBehind (line : String) : Nat × Nat :=
  if startsWithL "## ".data line.data then
    let rest := line.data.drop 3
    let afterName : Option (List Char) :=
      if startsWithL "No branch".data rest then some (rest.drop 9)
      else
        let nm := rest.takeWhile (fun c => !c.isWhitespace)
        if nm.isEmpty then none else some (rest.drop nm.length)
    match afterName with
    | none => (0, 0)
    | some r2 =>
      let r3 :=
        if startsWithL "...".data r2 then
          let nm2 := (r2.drop 3).takeWhile (fun c => !c.isWhitespace)
          if nm2.isEmpty then r2 else (r2.drop 3).drop nm2.length
        else r2
      match matchBracket r3 with
      | some ab => ab
      | none => (0, 0)
  else (0, 0)

/-- `branchLine.replace(/^## /, '')` (anchored, so at most the leading
occurrence is removed). -/
def stripHashes (s : String) : String :=
  if startsWithL "## ".data s.data then String.mk (s.data.drop 3) else s

/-- `.split('...')[0]`: the part before the first `...`. -/
def takeUntilDots : List Char → List Char
  | [] => []
  | c :: rest =>
    if startsWithL "...".data (c :: rest) then []
    else c :: takeUntilDots rest

/-- `branchLine.replace(/^## /, '').split('...')[0].split(' ')[0]`. -/
def branchOf (branchLine : String) : String :=
  String.mk (((takeUntilDots (stripHashes branchLine).data).takeWhile (fun c => c ≠ ' ')))

/-- The staged list built by the classification loop of `GitExecutor.status`
(lines hitting the conflict branch are skipped by `continue`). -/
def stagedOf (stdout : String) : List String :=
  ((statusLines stdout).filter (fun l => !isConflictLine l && isStagedLine l)).map fileNameOf

/-- The modified list of the classification loop. -/
def modifiedOf (stdout : String) : List String :=
  ((statusLines stdout).filter (fun l => !isConflictLine l && isModifiedLine l)).map fileNameOf

/-- The untracked list of the classification loop. -/
def untrackedOf (stdout : String) : List String :=
  ((statusLines stdout).filter (fun l => !isConflictLine l && isUntrackedLine l)).map fileNameOf

/-- The conflicts list of the classification loop. -/
def conflictsOf (stdout : String) : List String :=
  ((statusLines stdout).filter (fun l => isConflictLine l)).map fileNameOf

/-- The pure parsing part of `GitExecutor.status`, applied to the stdout of
`git status --porcelain=v1 --branch`. -/
def parseStatus (stdout : String) : GitStatus :=
  let branchLine := (allLines stdout).headD ""
  let ab := parseAheadBehind branchLine
  let branch := branchOf branchLine
  let staged := stagedOf stdout
  let modified := modifiedOf stdout
  let untracked := untrackedOf stdout
  let conflicts := conflictsOf stdout
  { isRepo := true
    branch := if branch = "HEAD" then "(detached)" else branch
    ahead := ab.1
    behind := ab.2
    staged := staged
    modified := modified
    untracked := untracked
    conflicts := conflicts
    clean := staged.length == 0 && modified.length == 0 &&
      untracked.length == 0 && conflicts.length == 0 }

/-! ## The command backend and the executor monad `M` -/

/-- The process substrate: given the trace of commands already issued and
the next command (without the `git ` word), the outcome of running it.
Letting the response depend on the trace models the evolving on-disk
repository state. -/
def Backend : Type := List String → String → Except GitError ExecResult

/-- Computations of `GitExecutor`: thread the command trace, short-circuit
on a thrown `GitError` (the trace of commands already issued persists). -/
def M (α : Type) : Type := List String → Except GitError α × List String

/-- Return. -/
def M.pure (a : α) : M α := fun tr => (Except.ok a, tr)

/-- Sequencing (`await`): propagate a thrown error. -/
def M.bind (x : M α) (f : α → M β) : M β := fun tr =>
  match x tr with
  | (Except.ok a, tr') => f a tr'
  | (Except.error e, tr') => (Except.error e, tr')

/-- `try ... catch`. -/
def M.tryCatch (x : M α) (h : GitError → M α) : M α := fun tr =>
  match x tr with
  | (Except.ok a, tr') => (Except.ok a, tr')
  | (Except.error e, tr') => h e tr'

/-- `throw`. -/
def M.throw (e : GitError) : M α := fun tr => (Except.error e, tr)

/-- `GitExecutor.run`: issue one backend command, recording it in the trace. -/
def runCmd (b : Backend) (cmd : String) : M ExecResult := fun tr =>
  (b tr cmd, tr ++ [cmd])

namespace GitExecutor

/-- `isGitAvailable`: probe `git --version`; unavailability is a boolean. -/
def isGitAvailable (b : Backend) : M Bool :=
  M.tryCatch (M.bind (runCmd b "--version") (fun _ => M.pure true))
    (fun _ => M.pure false)

/-- `isRepo`: `rev-parse --is-inside-work-tree` succeeds. -/
def isRepo (b : Backend) : M Bool :=
  M.tryCatch (M.bind (runCmd b "rev-parse --is-inside-work-tree") (fun _ => M.pure true))
    (fun _ => M.pure false)

/-- `getCurrentBranch`: `rev-parse --abbrev-ref HEAD`, trimmed. -/
def getCurrentBranch (b : Backend) : M String :=
  M.bind (runCmd b "rev-parse --abbrev-ref HEAD") (fun r => M.pure (trimStr r.stdout))

/-- `remotes` computed by `getRemoteName`:
`result.stdout.trim().split('\n').filter(Boolean)`. -/
def remotesOf (stdout : String) : List String :=
  (linesOf (trimStr stdout)).filter (fun l => l ≠ "")

/-- `getRemoteName`: prefer `origin`, else the first remote, else `none`;
`none` also on failure. -/
def getRemoteName (b : Backend) : M (Option String) :=
  M.tryCatch
    (M.bind (runCmd b "remote") (fun r =>
      let remotes := remotesOf r.stdout
      M.pure (if remotes.contains "origin" then some "origin" else remotes.head?)))
    (fun _ => M.pure none)

/-- `fetch`: `fetch <remote>` when a remote is configured, else nothing. -/
def fetch (b : Backend) : M Unit :=
  M.bind (getRemoteName b) (fun remote =>
    match remote with
    | some r => M.bind (runCmd b ("fetch " ++ r)) (fun _ => M.pure ())
    | none => M.pure ())

/-- `status`: one `status --porcelain=v1 --branch` call, then the pure parse. -/
def status (b : Backend) : M GitStatus :=
  M.bind (runCmd b "status --porcelain=v1 --branch")
    (fun r => M.pure (parseStatus r.stdout))

/-- `hasConflicts`: nonempty `diff --name-only --diff-filter=U` output;
`false` on failure. -/
def hasConflicts (b : Backend) : M Bool :=
  M.tryCatch
    (M.bind (runCmd b "diff --name-only --diff-filter=U")
      (fun r => M.pure ((trimStr r.stdout).length > 0)))
    (fun _ => M.pure false)

/-- `addAll`: `add -A`. -/
def addAll (b : Backend) : M Unit :=
  M.bind (runCmd b "add -A") (fun _ => M.pure ())

/-- The JavaScript `message.replace(/"/g, '\\"')` escaping of `commit`. -/
def escapeQuotes (s : String) : String :=
  String.mk (s.data.foldr (fun c acc => if c == '"' then '\\' :: '"' :: acc else c :: acc) [])

/-- The backend command issued by `commit`. -/
def commitCmdOf (message : String) : String :=
  "commit -m \"" ++ escapeQuotes message ++ "\""

/-- `commit(message)`: a failure whose stdout mentions `nothing to commit`
is a successful no-op; any other failure is re-thrown. -/
def commit (b : Backend) (message : String) : M CommitResult :=
  M.tryCatch
    (M.bind (runCmd b (commitCmdOf message))
      (fun _ => M.pure ⟨true, "Commit successful", 0⟩))
    (fun e =>
      if containsStr e.stdout "nothing to commit" then
        M.pure ⟨true, "Nothing to commit", 0⟩
      else M.throw e)

/-- `getConflictFiles`: the unmerged paths, `[]` on failure. -/
def getConflictFiles (b : Backend) : M (List String) :=
  M.tryCatch
    (M.bind (runCmd b "diff --name-only --diff-filter=U")
      (fun r => M.pure ((linesOf (trimStr r.stdout)).filter (fun l => l ≠ ""))))
    (fun _ => M.pure [])

/-- One step of the search for the lazy group of `^\s+(.+?)\s*\|`: is the
remainder a whitespace run followed by `|`? -/
def wsThenBar : List Char → Bool
  | [] => false
  | c :: cs => c == '|' || (c.isWhitespace && wsThenBar cs)

/-- For a fixed whitespace-prefix length, the minimal lazy group: the least
`k ≥ 1` whose remainder is whitespace then `|`. -/
def findGroup (rest : List Char) : Option (List Char) :=
  ((List.range rest.length).find? (fun i => wsThenBar (rest.drop (i + 1)))).map
    (fun i => rest.take (i + 1))

/-- Backtracking over the greedy `^\s+` prefix, longest first. -/
def tryPrefixes (cs : List Char) : Nat → Option (List Char)
  | 0 => none
  | a + 1 =>
    match findGroup (cs.drop (a + 1)) with
    | some g => some g
    | none => tryPrefixes cs a

/-- `line.match(/^\s+(.+?)\s*\|/)` followed by `match[1].trim()`. -/
def matchPullLine (line : String) : Option String :=
  let cs := line.data
  let wmax := (cs.takeWhile Char.isWhitespace).length
  (tryPrefixes cs wmax).map (fun g => trimStr (String.mk g))

/-- `parsePullFiles`: the changed-file names in a pull summary. -/
def parsePullFiles (output : String) : List String :=
  (linesOf output).filterMap matchPullLine

/-- `pull()`: no remote is a non-fatal failure; dirty work is stashed
before the rebase pull and a `stash pop` is attempted afterwards, its
failure swallowed; when the body throws and unmerged paths exist, the
conflict list is returned instead of the raw error. -/
def pull (b : Backend) : M PullResult :=
  M.tryCatch
    (M.bind (getCurrentBranch b) (fun branch =>
      M.bind (getRemoteName b) (fun remote =>
        match remote with
        | none => M.pure ⟨false, "No remote configured", [], []⟩
        | some rn =>
          M.bind (fetch b) (fun _ =>
            M.bind (status b) (fun st =>
              M.bind
                (if st.modified.length > 0 || st.staged.length > 0 then
                  M.bind (runCmd b "stash push -m \"obsidian-git-sync-auto-stash\"")
                    (fun _ => M.pure ())
                else M.pure ())
                (fun _ =>
                  M.bind (runCmd b ("pull " ++ rn ++ " " ++ branch ++ " --rebase"))
                    (fun result =>
                      M.bind
                        (M.tryCatch
                          (M.bind (runCmd b "stash pop") (fun _ => M.pure ()))
                          (fun _ => M.pure ()))
                        (fun _ =>
                          M.pure ⟨true, "Pull successful", parsePullFiles result.stdout, []⟩))))))))
    (fun e =>
      M.bind (hasConflicts b) (fun hc =>
        if hc then
          M.bind (getConflictFiles b) (fun conflictFiles =>
            M.pure ⟨false, "Merge conflicts detected", [], conflictFiles⟩)
        else M.throw e))

/-- The HTTPS-credential message of `parsePushError`. -/
def httpsAuthMsg : String :=
  "认证失败：HTTPS 推送需要配置凭证。请在终端运行: git config --global credential.helper store，然后手动执行一次 git push 输入用户名和 Personal Access Token"

/-- The SSH-key message of `parsePushError`. -/
def sshAuthMsg : String :=
  "SSH 认证失败：请检查 SSH 密钥是否已添加到 GitHub/GitLab"

/-- The write-permission message of `parsePushError`. -/
def permissionMsg : String := "无推送权限：请检查是否有仓库写入权限"

/-- The host-resolution message of `parsePushError`. -/
def networkMsg : String := "网络错误：无法解析远程主机"

/-- The generic fallback message of `parsePushError`. -/
def genericPushMsg : String := "推送失败，请检查网络和凭证配置"

/-- JS `line.replace('fatal: ', '')`: remove the first occurrence only. -/
def removeFirstFatal (line : String) : String :=
  match line.splitOn "fatal: " with
  | [] => line
  | [_] => line
  | p0 :: p1 :: rest => p0 ++ String.intercalate "fatal: " (p1 :: rest)

/-- `parsePushError`: classify the backend's stderr into the closed
message set, in the source's test order. -/
def parsePushError (e : GitError) : String :=
  let stderr := e.stderr
  if containsStr stderr "Authentication failed" || containsStr stderr "403" ||
      containsStr stderr "fatal: unable to access" then
    httpsAuthMsg
  else if containsStr stderr "Permission denied (publickey)" then
    sshAuthMsg
  else if containsStr stderr "Permission to" && containsStr stderr "denied" then
    permissionMsg
  else if containsStr stderr "Could not resolve host" then
    networkMsg
  else
    match ((linesOf stderr).find? (fun line => containsStr line "fatal:")) with
    | some fatalLine => trimStr (removeFirstFatal fatalLine)
    | none => genericPushMsg

/-- `push()`: never throws; failures are classified by `parsePushError`. -/
def push (b : Backend) : M PushResult :=
  M.tryCatch
    (M.bind (getCurrentBranch b) (fun branch =>
      M.bind (getRemoteName b) (fun remote =>
        match remote with
        | none => M.pure ⟨false, "未配置远程仓库", 0⟩
        | some rn =>
          M.bind (runCmd b ("push " ++ rn ++ " " ++ branch))
            (fun _ => M.pure ⟨true, "推送成功", 1⟩))))
    (fun e => M.pure ⟨false, parsePushError e, 0⟩)

/-- `pushWithUpstream()`: like `push` but with `push -u`. -/
def pushWithUpstream (b : Backend) : M PushResult :=
  M.tryCatch
    (M.bind (getCurrentBranch b) (fun branch =>
      M.bind (getRemoteName b) (fun remote =>
        match remote with
        | none => M.pure ⟨false, "未配置远程仓库", 0⟩
        | some rn =>
          M.bind (runCmd b ("push -u " ++ rn ++ " " ++ branch))
            (fun _ => M.pure ⟨true, "推送成功", 1⟩))))
    (fun e => M.pure ⟨false, parsePushError e, 0⟩)

/-- `hasUpstream()`: `rev-parse --abbrev-ref <branch>@{upstream}` succeeds. -/
def hasUpstream (b : Backend) : M Bool :=
  M.tryCatch
    (M.bind (getCurrentBranch b) (fun branch =>
      M.bind (runCmd b ("rev-parse --abbrev-ref " ++ branch ++ "@\x7bupstream\x7d"))
        (fun _ => M.pure true)))
    (fun _ => M.pure false)

end GitExecutor

/-! ## The sync orchestrator (src/sync/sync-manager.ts) -/

/-- The mutable fields of `SyncManager`, plus the stream of
`(status, message)` pairs pushed through the status callback. -/
structure SyncState where
  syncLock : Bool
  lastSyncTime : Option Nat
  lastSyncResult : Option SyncResult
  events : List (SyncStatus × String)
deriving DecidableEq, Repr

/-- Computations of `SyncManager`: thread the manager state and the
backend trace, short-circuit on a thrown `GitError`. -/
def SM (α : Type) : Type :=
  SyncState → List String → Except GitError α × SyncState × List String

/-- Return. -/
def SM.pure (a : α) : SM α := fun s tr => (Except.ok a, s, tr)

/-- Sequencing. -/
def SM.bind (x : SM α) (f : α → SM β) : SM β := fun s tr =>
  match x s tr with
  | (Except.ok a, s', tr') => f a s' tr'
  | (Except.error e, s', tr') => (Except.error e, s', tr')

/-- `try ... catch`. -/
def SM.tryCatch (x : SM α) (h : GitError → SM α) : SM α := fun s tr =>
  match x s tr with
  | (Except.ok a, s', tr') => (Except.ok a, s', tr')
  | (Except.error e, s', tr') => h e s' tr'

/-- `throw`. -/
def SM.throw (e : GitError) : SM α := fun s tr => (Except.error e, s, tr)

/-- Run a `GitExecutor` computation: the manager state is untouched. -/
def SM.lift (x : M α) : SM α := fun s tr =>
  match x tr with
  | (r, tr') => (r, s, tr')

/-- `updateStatus`: push one `(status, message)` pair to the callback. -/
def updateStatus (st : SyncStatus) (msg : String) : SM Unit := fun s tr =>
  (Except.ok (), { s with events := s.events ++ [(st, msg)] }, tr)

/-- `this.lastSyncResult = r`. -/
def setLastResult (r : SyncResult) : SM Unit := fun s tr =>
  (Except.ok (), { s with lastSyncResult := some r }, tr)

/-- `this.lastSyncTime = new Date()`. -/
def setLastTime (now : Nat) : SM Unit := fun s tr =>
  (Except.ok (), { s with lastSyncTime := some now }, tr)

/-- Result record of `SyncManager.checkGitStatus`. -/
structure CheckGit where
  available : Bool
  isRepo : Bool
  error : Option String
deriving DecidableEq, Repr

namespace SyncManager

/-- `checkGitStatus`: availability, then repository presence. -/
def checkGitStatus (b : Backend) : M CheckGit :=
  M.bind (GitExecutor.isGitAvailable b) (fun gitAvailable =>
    if gitAvailable then
      M.bind (GitExecutor.isRepo b) (fun ir => M.pure ⟨true, ir, none⟩)
    else
      M.pure ⟨false, false, some "Git is not installed or not found in PATH"⟩)

/-- `pullOnly`: trivial success with no remote; fetch, then trivial
success when not behind; else the protected pull.  When the body throws
and unmerged paths exist, report the conflicted files from a fresh status
instead of propagating the error. -/
def pullOnly (b : Backend) : SM PullResult :=
  SM.tryCatch
    (SM.bind (SM.lift (GitExecutor.getRemoteName b)) (fun remote =>
      match remote with
      | none => SM.pure ⟨true, "No remote configured, skipping pull", [], []⟩
      | some _ =>
        SM.bind (SM.lift (GitExecutor.fetch b)) (fun _ =>
          SM.bind (SM.lift (GitExecutor.status b)) (fun st =>
            if st.behind == 0 then
              SM.pure ⟨true, "Already up to date", [], []⟩
            else
              SM.bind (updateStatus SyncStatus.pulling "Pulling changes...") (fun _ =>
                SM.lift (GitExecutor.pull b))))))
    (fun e =>
      SM.bind (SM.lift (GitExecutor.hasConflicts b)) (fun hc =>
        if hc then
          SM.bind (SM.lift (GitExecutor.status b)) (fun st =>
            SM.bind (updateStatus SyncStatus.conflict "Merge conflicts detected") (fun _ =>
              SM.pure ⟨false, "Merge conflicts detected", [], st.conflicts⟩))
        else SM.throw e))

/-- `commitAndPush`: trivial success when clean and not ahead; direct push
when clean but ahead; else stage-all, commit, and push (upstream-creating
variant when no upstream).  A throw whose stdout mentions
`nothing to commit` still attempts the push. -/
def commitAndPush (b : Backend) (commitMsg : String) : SM PushResult :=
  SM.tryCatch
    (SM.bind (SM.lift (GitExecutor.status b)) (fun st =>
      if st.clean then
        if st.ahead > 0 then
          SM.bind (updateStatus SyncStatus.pushing "Pushing changes...") (fun _ =>
            SM.lift (GitExecutor.push b))
        else
          SM.pure ⟨true, "Nothing to commit or push", 0⟩
      else
        SM.bind (SM.lift (GitExecutor.addAll b)) (fun _ =>
          SM.bind (SM.lift (GitExecutor.commit b commitMsg)) (fun _ =>
            SM.bind (SM.lift (GitExecutor.hasUpstream b)) (fun hasUp =>
              SM.bind (updateStatus SyncStatus.pushing "Pushing changes...") (fun _ =>
                if hasUp then SM.lift (GitExecutor.push b)
                else SM.lift (GitExecutor.pushWithUpstream b)))))))
    (fun e =>
      if containsStr e.stdout "nothing to commit" then
        SM.tryCatch (SM.lift (GitExecutor.push b))
          (fun pushError => SM.pure ⟨false, pushError.message, 0⟩)
      else SM.pure ⟨false, e.message, 0⟩)

/-- The busy verdict of `sync`. -/
def busyResult : SyncResult := ⟨false, "Sync already in progress", none, none, none⟩

/-- The `try` body of `sync` (steps 2-5 of the algorithm). -/
def syncTry (b : Backend) (now : Nat) (commitMsg : String) : SM SyncResult :=
  SM.bind (SM.lift (checkGitStatus b)) (fun cg =>
    if !cg.available then
      SM.bind (updateStatus SyncStatus.error (cg.error.getD "Git not available")) (fun _ =>
        SM.pure ⟨false, cg.error.getD "Git not available", none, none, none⟩)
    else if !cg.isRepo then
      SM.bind (updateStatus SyncStatus.error "Not a git repository") (fun _ =>
        SM.pure ⟨false, "Not a git repository. Please initialize a git repository first.", none, none, none⟩)
    else
      SM.bind (SM.lift (GitExecutor.hasConflicts b)) (fun hc =>
        if hc then
          SM.bind (updateStatus SyncStatus.conflict "Merge conflicts detected") (fun _ =>
            SM.pure ⟨false, "Merge conflicts detected. Please resolve them manually.", none, none, some []⟩)
        else
          SM.bind (updateStatus SyncStatus.pulling "Pulling changes...") (fun _ =>
            SM.bind (pullOnly b) (fun pullResult =>
              if !pullResult.success && pullResult.conflicts.length > 0 then
                SM.bind (updateStatus SyncStatus.conflict "Merge conflicts detected") (fun _ =>
                  SM.bind (setLastResult ⟨false, "Merge conflicts after pull", none, none, some pullResult.conflicts⟩) (fun _ =>
                    SM.pure ⟨false, "Merge conflicts after pull", none, none, some pullResult.conflicts⟩))
              else
                SM.bind (updateStatus SyncStatus.pushing "Committing and pushing changes...") (fun _ =>
                  SM.bind (commitAndPush b commitMsg) (fun pushResult =>
                    if pushResult.success then
                      SM.bind (updateStatus SyncStatus.success "Sync completed successfully") (fun _ =>
                        SM.bind (setLastTime now) (fun _ =>
                          SM.bind (setLastResult ⟨true, "Sync completed", some pullResult.files.length, some pushResult.pushed, none⟩) (fun _ =>
                            SM.pure ⟨true, "Sync completed", some pullResult.files.length, some pushResult.pushed, none⟩)))
                    else
                      SM.bind (updateStatus SyncStatus.error pushResult.message) (fun _ =>
                        SM.bind (setLastResult ⟨false, pushResult.message, none, none, none⟩) (fun _ =>
                          SM.pure ⟨false, pushResult.message, none, none, none⟩))))))))

/-- The `catch` clause of `sync`. -/
def syncCatch (e : GitError) : SM SyncResult :=
  let message := if e.message = "" then "Unknown error during sync" else e.message
  SM.bind (updateStatus SyncStatus.error message) (fun _ =>
    SM.bind (setLastResult ⟨false, message, none, none, none⟩) (fun _ =>
      SM.pure ⟨false, message, none, none, none⟩))

/-- `sync()`: reject when the single-flight lock is held; otherwise take
the lock, run the body with its catch-all, and release the lock on every
exit path (the `finally`). -/
def sync (b : Backend) (now : Nat) (commitMsg : String) : SM SyncResult := fun s tr =>
  if s.syncLock then (Except.ok busyResult, s, tr)
  else
    match SM.tryCatch (syncTry b now commitMsg) syncCatch { s with syncLock := true } tr with
    | (r, s', tr') => (r, { s' with syncLock := false }, tr')

end SyncManager

/-! ## The plugin entry points (main.ts) -/

namespace Plugin

/-- The busy notice shown by every entry point. -/
def busyNotice : String := "同步正在进行中"

/-- `GitSyncPlugin.sync`: reject with a notice while a sync is in
progress, else notify, run the manager's sync, and notify its verdict. -/
def sync (b : Backend) (now : Nat) (commitMsg : String) (s : SyncState)
    (tr : List String) : List String × SyncState × List String :=
  if s.syncLock then ([busyNotice], s, tr)
  else
    match SyncManager.sync b now commitMsg s tr with
    | (Except.ok r, s', tr') =>
      (["开始同步..."] ++ [if r.success then r.message else "同步失败: " ++ r.message], s', tr')
    | (Except.error _, s', tr') => (["开始同步..."], s', tr')

/-- `GitSyncPlugin.pull`: busy check, then the manager's `pullOnly` (whose
uncaught throw would surface as an unhandled rejection, modelled by the
`error` component). -/
def pull (b : Backend) (s : SyncState) (tr : List String) :
    Except GitError (List String) × SyncState × List String :=
  if s.syncLock then (Except.ok [busyNotice], s, tr)
  else
    match SyncManager.pullOnly b s tr with
    | (Except.ok r, s', tr') =>
      (Except.ok [if r.success then r.message else "拉取失败: " ++ r.message], s', tr')
    | (Except.error e, s', tr') => (Except.error e, s', tr')

/-- `GitSyncPlugin.commitAndPush`: busy check, then the manager's
`commitAndPush`. -/
def commitAndPush (b : Backend) (commitMsg : String) (s : SyncState)
    (tr : List String) : Except GitError (List String) × SyncState × List String :=
  if s.syncLock then (Except.ok [busyNotice], s, tr)
  else
    match SyncManager.commitAndPush b commitMsg s tr with
    | (Except.ok r, s', tr') =>
      (Except.ok [if r.success then r.message else "推送失败: " ++ r.message], s', tr')
    | (Except.error e, s', tr') => (Except.error e, s', tr')

end Plugin

/-! ## Claim theorems -/

/-- Backend answering every command with the porcelain output whose single
file line carries the `MM` code pair. -/
def mmBackend : Backend := fun _ _ => Except.ok ⟨"## main\nMM a.md", ""⟩

/-- Claim C10: a non-conflicted status line whose index and work-tree codes
are both change codes (the pair `MM`) is placed by `status()` in both the
staged list and the modified list, so the two lists are not disjoint. -/
theorem c10_staged_modified_not_disjoint :
    GitExecutor.status mmBackend [] =
      (Except.ok (parseStatus "## main\nMM a.md"), ["status --porcelain=v1 --branch"]) ∧
    isConflictLine "MM a.md" = false ∧
    (parseStatus "## main\nMM a.md").staged = ["a.md"] ∧
    (parseStatus "## main\nMM a.md").modified = ["a.md"] :=
  ⟨rfl, by decide, by decide, by decide⟩

/-- The conflict rule exactly as claim C3 words it (modelled from the
spec's words, for comparison with the source's `isConflictLine`): both
characters `U`, or both `A`, or both `D`. -/
def specConflictPair (l : String) : Bool :=
  (idxChar l == some 'U' && wtChar l == some 'U') ||
  (idxChar l == some 'A' && wtChar l == some 'A') ||
  (idxChar l == some 'D' && wtChar l == some 'D')

/-- The classification rule of claim C3, as stated, over one status output
(modelled from the spec's words). -/
def specC3Rule (stdout : String) : Prop :=
  ∀ l ∈ statusLines stdout,
    (specConflictPair l = true → fileNameOf l ∈ (parseStatus stdout).conflicts) ∧
    (specConflictPair l = false →
      (isStagedLine l = true → fileNameOf l ∈ (parseStatus stdout).staged) ∧
      (isModifiedLine l = true → fileNameOf l ∈ (parseStatus stdout).modified) ∧
      (isUntrackedLine l = true → fileNameOf l ∈ (parseStatus stdout).untracked))

/-- Claim C3, counterexample: on the status line `UD a.md` (unmerged,
deleted by them) the claim's rule demands membership in `staged`, but the
code classifies the line as a conflict, so the rule as stated fails. -/
theorem c3_counterexample : ¬ specC3Rule "## main\nUD a.md" := by
  unfold specC3Rule
  decide

/-- Claim C3 (amended): a line with either character `U`, or the pair
`AA`, or the pair `DD`, goes to `conflicts`; otherwise a non-space,
non-`?` index code puts the path in `staged`, a non-space non-`?`
work-tree code puts it in `modified`, and `??` puts it in `untracked`;
and a both-`U` path appears in `conflicts` and — when no same-named line
is classified differently — in no other list. -/
theorem c3_classification (stdout : String) (l : String) (hl : l ∈ statusLines stdout) :
    (isConflictLine l = true → fileNameOf l ∈ (parseStatus stdout).conflicts) ∧
    (isConflictLine l = false →
      (isStagedLine l = true → fileNameOf l ∈ (parseStatus stdout).staged) ∧
      (isModifiedLine l = true → fileNameOf l ∈ (parseStatus stdout).modified) ∧
      (isUntrackedLine l = true → fileNameOf l ∈ (parseStatus stdout).untracked)) ∧
    ((idxChar l == some 'U' && wtChar l == some 'U') = true →
      (∀ l' ∈ statusLines stdout, fileNameOf l' = fileNameOf l → isConflictLine l' = true) →
      fileNameOf l ∈ (parseStatus stdout).conflicts ∧
      fileNameOf l ∉ (parseStatus stdout).staged ∧
      fileNameOf l ∉ (parseStatus stdout).modified ∧
      fileNameOf l ∉ (parseStatus stdout).untracked) := by
  have hconf : (parseStatus stdout).conflicts = conflictsOf stdout := rfl
  have hstag : (parseStatus stdout).staged = stagedOf stdout := rfl
  have hmod : (parseStatus stdout).modified = modifiedOf stdout := rfl
  have huntr : (parseStatus stdout).untracked = untrackedOf stdout := rfl
  rw [hconf, hstag, hmod, huntr]
  refine ⟨?_, ?_, ?_⟩
  · intro hc
    exact List.mem_map_of_mem _ (List.mem_filter.2 ⟨hl, hc⟩)
  · intro hnc
    refine ⟨?_, ?_, ?_⟩ <;> intro hcl <;>
      exact List.mem_map_of_mem _ (List.mem_filter.2 ⟨hl, by simp [hnc, hcl]⟩)
  · intro hUU huniq
    have hc : isConflictLine l = true := by
      simp only [isConflictLine]
      simp only [Bool.and_eq_true] at hUU
      simp [hUU.1]
    refine ⟨List.mem_map_of_mem _ (List.mem_filter.2 ⟨hl, hc⟩), ?_, ?_, ?_⟩ <;>
    · intro hmem
      obtain ⟨l', hl', heq⟩ := List.mem_map.1 hmem
      have := List.mem_filter.1 hl'
      have hcl' := huniq l' this.1 heq
      simp [hcl'] at this

/-- Witness for the amended C3 classification: a both-`U` line lands in
`conflicts` and not in `staged`. -/
theorem c3_classification_witness :
    fileNameOf "UU a.md" ∈ (parseStatus "## main\nUU a.md").conflicts ∧
    fileNameOf "UU a.md" ∉ (parseStatus "## main\nUU a.md").staged := by
  have h := (c3_classification "## main\nUU a.md" "UU a.md" (by decide)).2.2
    (by decide) (by decide)
  exact ⟨h.1, h.2.1⟩

/-- A push stderr carrying both the HTTPS marker and the SSH marker. -/
def bothMarkersErr : GitError :=
  ⟨"", none, "Authentication failed\nPermission denied (publickey)", ""⟩

/-- Claim C6, counterexample: a stderr containing
`Permission denied (publickey)` does not always map to the SSH-key
category — when `Authentication failed` is also present, the HTTPS branch
wins (the source tests it first). -/
theorem c6_counterexample :
    containsStr bothMarkersErr.stderr "Permission denied (publickey)" = true ∧
    GitExecutor.parsePushError bothMarkersErr = GitExecutor.httpsAuthMsg ∧
    GitExecutor.parsePushError bothMarkersErr ≠ GitExecutor.sshAuthMsg := by
  refine ⟨by decide, by decide, by decide⟩

/-- Claim C6 (amended): stderr containing `Authentication failed` always
maps to the HTTPS-credential message; stderr containing
`Permission denied (publickey)` maps to the SSH-key message provided no
HTTPS marker (`Authentication failed`, `403`, `fatal: unable to access`)
is present; the two messages are distinct, so one stderr never produces
both. -/
theorem c6_push_error_classification (e : GitError) :
    (containsStr e.stderr "Authentication failed" = true →
      GitExecutor.parsePushError e = GitExecutor.httpsAuthMsg) ∧
    (containsStr e.stderr "Permission denied (publickey)" = true →
      containsStr e.stderr "Authentication failed" = false →
      containsStr e.stderr "403" = false →
      containsStr e.stderr "fatal: unable to access" = false →
      GitExecutor.parsePushError e = GitExecutor.sshAuthMsg) ∧
    GitExecutor.httpsAuthMsg ≠ GitExecutor.sshAuthMsg := by
  refine ⟨?_, ?_, by decide⟩
  · intro h1
    simp [GitExecutor.parsePushError, h1]
  · intro h1 h2 h3 h4
    simp [GitExecutor.parsePushError, h1, h2, h3, h4]

/-- An HTTPS-failure stderr. -/
def httpsOnlyErr : GitError := ⟨"", none, "remote: Authentication failed", ""⟩

/-- An SSH-failure stderr. -/
def sshOnlyErr : GitError :=
  ⟨"", none, "git@github.com: Permission denied (publickey).", ""⟩

/-- Witness for the amended C6 classification. -/
theorem c6_push_error_classification_witness :
    GitExecutor.parsePushError httpsOnlyErr = GitExecutor.httpsAuthMsg ∧
    GitExecutor.parsePushError sshOnlyErr = GitExecutor.sshAuthMsg :=
  ⟨(c6_push_error_classification httpsOnlyErr).1 (by decide),
   (c6_push_error_classification sshOnlyErr).2.1 (by decide) (by decide)
     (by decide) (by decide)⟩

/-- Claim C1: while the single-flight lock is held, each top-level entry
point (full sync, pull-only, commit-and-push) is rejected immediately with
the busy verdict: no backend command is issued (the trace is unchanged)
and the state — in particular `lastSyncTime` — is untouched.  The manager
level `sync` likewise returns its busy verdict without any effect. -/
theorem c1_single_flight_busy (b : Backend) (now : Nat) (commitMsg : String)
    (s : SyncState) (tr : List String) (hlock : s.syncLock = true) :
    Plugin.sync b now commitMsg s tr = ([Plugin.busyNotice], s, tr) ∧
    Plugin.pull b s tr = (Except.ok [Plugin.busyNotice], s, tr) ∧
    Plugin.commitAndPush b commitMsg s tr = (Except.ok [Plugin.busyNotice], s, tr) ∧
    SyncManager.sync b now commitMsg s tr = (Except.ok SyncManager.busyResult, s, tr) := by
  refine ⟨?_, ?_, ?_, ?_⟩ <;>
    simp [Plugin.sync, Plugin.pull, Plugin.commitAndPush, SyncManager.sync, hlock]

/-- A trivially answering backend, and a state holding the lock. -/
def okBackend : Backend := fun _ _ => Except.ok ⟨"", ""⟩

/-- A state with the single-flight lock held. -/
def lockedState : SyncState := ⟨true, some 5, none, []⟩

/-- Witness for C1: the busy rejection at a concrete locked state. -/
theorem c1_single_flight_busy_witness :
    SyncManager.sync okBackend 7 "m" lockedState [] =
      (Except.ok SyncManager.busyResult, lockedState, []) ∧
    Plugin.sync okBackend 7 "m" lockedState [] = ([Plugin.busyNotice], lockedState, []) := by
  have h := c1_single_flight_busy okBackend 7 "m" lockedState [] rfl
  exact ⟨h.2.2.2, h.1⟩

/-- The pushed counter of a push outcome is the success flag: `1` exactly
on success, `0` otherwise. -/
def pushedMatchesSuccess (x : Except GitError PushResult × List String) : Prop :=
  ∀ r : PushResult, x.1 = Except.ok r → r.pushed = (if r.success then 1 else 0)

/-- Claim C9: for every backend and trace, a successful `push()` or
`pushWithUpstream()` reports `pushed = 1` — a constant flag, never a
commit count — and every failed one reports `pushed = 0`. -/
theorem c9_pushed_is_flag (b : Backend) (tr : List String) :
    pushedMatchesSuccess (GitExecutor.push b tr) ∧
    pushedMatchesSuccess (GitExecutor.pushWithUpstream b tr) := by
  constructor <;>
  · intro r h
    simp only [GitExecutor.push, GitExecutor.pushWithUpstream, M.tryCatch, M.bind, M.pure,
      runCmd, GitExecutor.getCurrentBranch, GitExecutor.getRemoteName] at h
    rcases hb1 : b tr "rev-parse --abbrev-ref HEAD" with e1 | r1 <;> rw [hb1] at h <;>
      simp only [] at h
    · cases h; simp
    · rcases hb2 : b (tr ++ ["rev-parse --abbrev-ref HEAD"]) "remote" with e2 | r2 <;>
        rw [hb2] at h <;>
        simp only [M.bind, M.pure, runCmd] at h
      · cases h; simp
      · rcases hrn : (if (GitExecutor.remotesOf r2.stdout).contains "origin" = true
            then some "origin" else (GitExecutor.remotesOf r2.stdout).head?) with _ | rn <;>
          rw [hrn] at h <;> simp only [M.bind, M.pure, runCmd] at h
        · cases h; simp
        · rcases hb3 : b (tr ++ ["rev-parse --abbrev-ref HEAD"] ++ ["remote"])
              ("push " ++ rn ++ " " ++ trimStr r1.stdout) with e3 | r3 <;>
            rcases hb4 : b (tr ++ ["rev-parse --abbrev-ref HEAD"] ++ ["remote"])
              ("push -u " ++ rn ++ " " ++ trimStr r1.stdout) with e4 | r4 <;>
            simp only [hb3, hb4] at h <;> (cases h; simp)

/-- A backend on which `push` succeeds: a branch, an `origin` remote, and
an accepting push. -/
def okPushBackend : Backend := fun _ cmd =>
  if cmd = "remote" then Except.ok ⟨"origin\n", ""⟩
  else if cmd = "rev-parse --abbrev-ref HEAD" then Except.ok ⟨"main\n", ""⟩
  else Except.ok ⟨"", ""⟩

/-- Witness for C9: on a concrete succeeding backend the counter is `1`. -/
theorem c9_pushed_is_flag_witness :
    (GitExecutor.push okPushBackend []).1 = Except.ok ⟨true, "推送成功", 1⟩ ∧
    (⟨true, "推送成功", 1⟩ : PushResult).pushed = (if (⟨true, "推送成功", 1⟩ : PushResult).success then 1 else 0) := by
  have h := (c9_pushed_is_flag okPushBackend []).1 ⟨true, "推送成功", 1⟩ (by rfl)
  exact ⟨rfl, h⟩

/-- Claim C7: `commit(message)` propagates the backend's error except when
the failure's stdout mentions `nothing to commit`, which becomes a
successful no-op; and `commitAndPush` whose commit step fails that way is
non-fatal — the flow still reaches the push, whose result becomes the
operation's result. -/
theorem c7_nothing_to_commit :
    (∀ (b : Backend) (msg : String) (tr : List String) (e : GitError),
      b tr (GitExecutor.commitCmdOf msg) = Except.error e →
      (containsStr e.stdout "nothing to commit" = true →
        GitExecutor.commit b msg tr =
          (Except.ok ⟨true, "Nothing to commit", 0⟩, tr ++ [GitExecutor.commitCmdOf msg])) ∧
      (containsStr e.stdout "nothing to commit" = false →
        GitExecutor.commit b msg tr =
          (Except.error e, tr ++ [GitExecutor.commitCmdOf msg]))) ∧
    (∀ (b : Backend) (msg : String) (s : SyncState) (tr tr2 tr5 tr6 : List String)
        (st : GitStatus) (ra : ExecResult) (e : GitError) (pr : PushResult),
      GitExecutor.status b tr = (Except.ok st, tr2) →
      st.clean = false →
      b tr2 "add -A" = Except.ok ra →
      b (tr2 ++ ["add -A"]) (GitExecutor.commitCmdOf msg) = Except.error e →
      containsStr e.stdout "nothing to commit" = true →
      GitExecutor.hasUpstream b (tr2 ++ ["add -A", GitExecutor.commitCmdOf msg]) =
        (Except.ok true, tr5) →
      GitExecutor.push b tr5 = (Except.ok pr, tr6) →
      SyncManager.commitAndPush b msg s tr =
        (Except.ok pr,
         { s with events := s.events ++ [(SyncStatus.pushing, "Pushing changes...")] },
         tr6)) := by
  constructor
  · intro b msg tr e hfail
    constructor <;> intro hin <;>
      simp [GitExecutor.commit, M.tryCatch, M.bind, M.pure, M.throw, runCmd, hfail, hin]
  · intro b msg s tr tr2 tr5 tr6 st ra e pr hst hclean hadd hcom hnc hup hpush
    simp [SyncManager.commitAndPush, SM.tryCatch, SM.bind, SM.lift, SM.pure, SM.throw,
      updateStatus, GitExecutor.addAll, GitExecutor.commit, M.tryCatch, M.bind, M.pure,
      M.throw, runCmd, hst, hclean, hadd, hcom, hnc, hup, hpush]

/-- The `nothing to commit` failure raised by the backend's commit. -/
def ncErr : GitError := ⟨"exit 1", none, "", "nothing to commit, working tree clean"⟩

/-- Backend for the C7 witness: a dirty working tree whose commit fails
with `nothing to commit` (a concurrent-commit race), after which the push
is accepted. -/
def c7Backend : Backend := fun _ cmd =>
  if cmd = "status --porcelain=v1 --branch" then Except.ok ⟨"## main\n M a.md", ""⟩
  else if cmd = "commit -m \"m\"" then Except.error ncErr
  else if cmd = "remote" then Except.ok ⟨"origin\n", ""⟩
  else if cmd = "rev-parse --abbrev-ref HEAD" then Except.ok ⟨"main\n", ""⟩
  else Except.ok ⟨"", ""⟩

/-- Witness for C7: the no-op commit result and the commit-and-push run
that still pushes after the `nothing to commit` failure. -/
theorem c7_nothing_to_commit_witness :
    GitExecutor.commit c7Backend "m" [] =
      (Except.ok ⟨true, "Nothing to commit", 0⟩, [GitExecutor.commitCmdOf "m"]) ∧
    SyncManager.commitAndPush c7Backend "m" ⟨false, none, none, []⟩ [] =
      (Except.ok ⟨true, "推送成功", 1⟩,
       ⟨false, none, none, [(SyncStatus.pushing, "Pushing changes...")]⟩,
       ["status --porcelain=v1 --branch", "add -A", GitExecutor.commitCmdOf "m",
        "rev-parse --abbrev-ref HEAD", "rev-parse --abbrev-ref main@\x7bupstream\x7d",
        "rev-parse --abbrev-ref HEAD", "remote", "push origin main"]) := by
  constructor
  · exact (c7_nothing_to_commit.1 c7Backend "m" [] ncErr (by rfl)).1 (by decide)
  · exact c7_nothing_to_commit.2 c7Backend "m" ⟨false, none, none, []⟩ []
      ["status --porcelain=v1 --branch"]
      ["status --porcelain=v1 --branch", "add -A", GitExecutor.commitCmdOf "m",
       "rev-parse --abbrev-ref HEAD", "rev-parse --abbrev-ref main@\x7bupstream\x7d"]
      ["status --porcelain=v1 --branch", "add -A", GitExecutor.commitCmdOf "m",
       "rev-parse --abbrev-ref HEAD", "rev-parse --abbrev-ref main@\x7bupstream\x7d",
       "rev-parse --abbrev-ref HEAD", "remote", "push origin main"]
      (parseStatus "## main\n M a.md") ⟨"", ""⟩ ncErr ⟨true, "推送成功", 1⟩
      (by rfl) (by decide) (by rfl) (by rfl) (by decide) (by rfl) (by rfl)

/-- The failure `stash pop` raises when restoring the stash conflicts. -/
def popConflictErr : GitError :=
  ⟨"CONFLICT", none, "", "CONFLICT (content): Merge conflict in a.md"⟩

/-- Backend for C2: a dirty tree (so the pull stashes), a succeeding
rebase pull, and a `stash pop` that fails with a conflict. -/
def stashPopBackend : Backend := fun _ cmd =>
  if cmd = "stash pop" then Except.error popConflictErr
  else if cmd = "status --porcelain=v1 --branch" then
    Except.ok ⟨"## main...origin/main [behind 1]\n M a.md", ""⟩
  else if cmd = "rev-parse --abbrev-ref HEAD" then Except.ok ⟨"main\n", ""⟩
  else if cmd = "remote" then Except.ok ⟨"origin\n", ""⟩
  else Except.ok ⟨"", ""⟩

/-- The backend commands `pull` has issued up to the stash restoration. -/
def c2Trace : List String :=
  ["rev-parse --abbrev-ref HEAD", "remote", "remote", "fetch origin",
   "status --porcelain=v1 --branch", "stash push -m \"obsidian-git-sync-auto-stash\"",
   "pull origin main --rebase"]

/-- Claim C2, counterexample: on this backend the stash restoration fails
with a conflict, yet `pull()` returns a plain success with an empty
conflict list — the restoration failure is swallowed, not surfaced as a
conflict outcome. -/
theorem c2_counterexample :
    stashPopBackend c2Trace "stash pop" = Except.error popConflictErr ∧
    GitExecutor.pull stashPopBackend [] =
      (Except.ok ⟨true, "Pull successful", [], []⟩, c2Trace ++ ["stash pop"]) :=
  ⟨rfl, rfl⟩

/-- Claim C2 (amended): when staged or modified files exist, `pull()`
stashes them before the rebase pull and attempts a `stash pop` afterwards
(visible in the trace order); but a failing restoration — conflicts
included — is swallowed and the pull still reports success with an empty
conflict list. -/
theorem c2_stash_protect (b : Backend) (tr tr1 tr2 tr3 tr4 : List String) (br rn : String)
    (st : GitStatus) (rs rp : ExecResult) (epop : GitError)
    (hbr : GitExecutor.getCurrentBranch b tr = (Except.ok br, tr1))
    (hrm : GitExecutor.getRemoteName b tr1 = (Except.ok (some rn), tr2))
    (hft : GitExecutor.fetch b tr2 = (Except.ok (), tr3))
    (hst : GitExecutor.status b tr3 = (Except.ok st, tr4))
    (hdirty : (st.modified.length > 0 || st.staged.length > 0) = true)
    (hstash : b tr4 "stash push -m \"obsidian-git-sync-auto-stash\"" = Except.ok rs)
    (hpull : b (tr4 ++ ["stash push -m \"obsidian-git-sync-auto-stash\""])
        ("pull " ++ rn ++ " " ++ br ++ " --rebase") = Except.ok rp)
    (hpop : b (tr4 ++ ["stash push -m \"obsidian-git-sync-auto-stash\"",
        "pull " ++ rn ++ " " ++ br ++ " --rebase"]) "stash pop" = Except.error epop) :
    GitExecutor.pull b tr =
      (Except.ok ⟨true, "Pull successful", GitExecutor.parsePullFiles rp.stdout, []⟩,
       tr4 ++ ["stash push -m \"obsidian-git-sync-auto-stash\"",
         "pull " ++ rn ++ " " ++ br ++ " --rebase", "stash pop"]) := by
  simp [GitExecutor.pull, M.tryCatch, M.bind, M.pure, M.throw, runCmd,
    hbr, hrm, hft, hst, hdirty, hstash, hpull, hpop]

/-- Witness for the amended C2: the concrete stash-pop-conflict run. -/
theorem c2_stash_protect_witness :
    GitExecutor.pull stashPopBackend [] =
      (Except.ok ⟨true, "Pull successful",
        GitExecutor.parsePullFiles (ExecResult.stdout ⟨"", ""⟩), []⟩,
       ["rev-parse --abbrev-ref HEAD", "remote", "remote", "fetch origin",
        "status --porcelain=v1 --branch"] ++
        ["stash push -m \"obsidian-git-sync-auto-stash\"",
         "pull origin main --rebase", "stash pop"]) :=
  c2_stash_protect stashPopBackend []
    ["rev-parse --abbrev-ref HEAD"]
    ["rev-parse --abbrev-ref HEAD", "remote"]
    ["rev-parse --abbrev-ref HEAD", "remote", "remote", "fetch origin"]
    ["rev-parse --abbrev-ref HEAD", "remote", "remote", "fetch origin",
     "status --porcelain=v1 --branch"]
    "main" "origin" (parseStatus "## main...origin/main [behind 1]\n M a.md")
    ⟨"", ""⟩ ⟨"", ""⟩ popConflictErr
    (by rfl) (by rfl) (by rfl) (by rfl) (by decide) (by rfl) (by rfl) (by rfl)

/-- Claim C8: `pullOnly` on a repository with no configured remote
succeeds trivially with zero files after the single `remote` query — no
fetch and no pull command is issued; with a remote but not behind after
the fetch, it likewise succeeds trivially with zero files. -/
theorem c8_pull_only_trivial :
    (∀ (b : Backend) (s : SyncState) (tr : List String),
      GitExecutor.getRemoteName b tr = (Except.ok none, tr ++ ["remote"]) →
      SyncManager.pullOnly b s tr =
        (Except.ok ⟨true, "No remote configured, skipping pull", [], []⟩, s, tr ++ ["remote"]) ∧
      containsStr "remote" "fetch" = false ∧ containsStr "remote" "pull" = false) ∧
    (∀ (b : Backend) (s : SyncState) (tr tr1 tr2 tr3 : List String) (rn : String) (st : GitStatus),
      GitExecutor.getRemoteName b tr = (Except.ok (some rn), tr1) →
      GitExecutor.fetch b tr1 = (Except.ok (), tr2) →
      GitExecutor.status b tr2 = (Except.ok st, tr3) →
      st.behind = 0 →
      SyncManager.pullOnly b s tr = (Except.ok ⟨true, "Already up to date", [], []⟩, s, tr3)) := by
  constructor
  · intro b s tr h
    refine ⟨?_, by decide, by decide⟩
    simp [SyncManager.pullOnly, SM.tryCatch, SM.bind, SM.lift, SM.pure, updateStatus, h]
  · intro b s tr tr1 tr2 tr3 rn st hrm hft hst hb
    simp [SyncManager.pullOnly, SM.tryCatch, SM.bind, SM.lift, SM.pure, updateStatus,
      hrm, hft, hst, hb]

/-- Backend with a remote that is already up to date after the fetch. -/
def upToDateBackend : Backend := fun _ cmd =>
  if cmd = "remote" then Except.ok ⟨"origin\n", ""⟩
  else if cmd = "status --porcelain=v1 --branch" then
    Except.ok ⟨"## main...origin/main", ""⟩
  else Except.ok ⟨"", ""⟩

/-- Witness for C8: the remoteless trivial success (on `okBackend`, whose
`remote` answer is empty) and the not-behind trivial success. -/
theorem c8_pull_only_trivial_witness :
    SyncManager.pullOnly okBackend ⟨false, none, none, []⟩ [] =
      (Except.ok ⟨true, "No remote configured, skipping pull", [], []⟩,
       ⟨false, none, none, []⟩, ["remote"]) ∧
    SyncManager.pullOnly upToDateBackend ⟨false, none, none, []⟩ [] =
      (Except.ok ⟨true, "Already up to date", [], []⟩, ⟨false, none, none, []⟩,
       ["remote", "remote", "fetch origin", "status --porcelain=v1 --branch"]) :=
  ⟨(c8_pull_only_trivial.1 okBackend ⟨false, none, none, []⟩ [] (by rfl)).1,
   c8_pull_only_trivial.2 upToDateBackend ⟨false, none, none, []⟩ []
     ["remote"] ["remote", "remote", "fetch origin"]
     ["remote", "remote", "fetch origin", "status --porcelain=v1 --branch"]
     "origin" (parseStatus "## main...origin/main")
     (by rfl) (by rfl) (by rfl) (by decide)⟩

/-- Claim C4: a full sync entered with `hasConflicts()` true aborts with
the conflict verdict right after the availability, repository and
conflict probes: the final trace adds exactly those three commands — none
of them pull-, push- or fetch-related — and `lastSyncTime` and
`lastSyncResult` are untouched. -/
theorem c4_conflict_precheck (b : Backend) (now : Nat) (commitMsg : String)
    (s : SyncState) (tr : List String) (rv rr rc : ExecResult)
    (hlock : s.syncLock = false)
    (hv : b tr "--version" = Except.ok rv)
    (hr : b (tr ++ ["--version"]) "rev-parse --is-inside-work-tree" = Except.ok rr)
    (hc : b (tr ++ ["--version", "rev-parse --is-inside-work-tree"])
        "diff --name-only --diff-filter=U" = Except.ok rc)
    (hcc : (trimStr rc.stdout).length > 0) :
    SyncManager.sync b now commitMsg s tr =
      (Except.ok ⟨false, "Merge conflicts detected. Please resolve them manually.",
        none, none, some []⟩,
       ⟨false, s.lastSyncTime, s.lastSyncResult,
        s.events ++ [(SyncStatus.conflict, "Merge conflicts detected")]⟩,
       tr ++ ["--version", "rev-parse --is-inside-work-tree", "diff --name-only --diff-filter=U"]) ∧
    (∀ c ∈ ["--version", "rev-parse --is-inside-work-tree", "diff --name-only --diff-filter=U"],
      containsStr c "pull" = false ∧ containsStr c "push" = false ∧
      containsStr c "fetch" = false) := by
  refine ⟨?_, by decide⟩
  simp [SyncManager.sync, SyncManager.syncTry, SyncManager.syncCatch, SyncManager.checkGitStatus,
    GitExecutor.isGitAvailable, GitExecutor.isRepo, GitExecutor.hasConflicts,
    SM.tryCatch, SM.bind, SM.lift, SM.pure, SM.throw, updateStatus,
    M.tryCatch, M.bind, M.pure, M.throw, runCmd, hlock, hv, hr, hc, hcc]

/-- Backend with one unmerged path: the conflict probe reports `a.md`. -/
def conflictedBackend : Backend := fun _ cmd =>
  if cmd = "diff --name-only --diff-filter=U" then Except.ok ⟨"a.md", ""⟩
  else Except.ok ⟨"", ""⟩

/-- Witness for C4: the conflict-blocked sync on a concrete backend. -/
theorem c4_conflict_precheck_witness :
    SyncManager.sync conflictedBackend 9 "m" ⟨false, none, none, []⟩ [] =
      (Except.ok ⟨false, "Merge conflicts detected. Please resolve them manually.",
        none, none, some []⟩,
       ⟨false, none, none, [(SyncStatus.conflict, "Merge conflicts detected")]⟩,
       ["--version", "rev-parse --is-inside-work-tree", "diff --name-only --diff-filter=U"]) :=
  (c4_conflict_precheck conflictedBackend 9 "m" ⟨false, none, none, []⟩ []
    ⟨"", ""⟩ ⟨"", ""⟩ ⟨"a.md", ""⟩ rfl rfl rfl rfl (by decide)).1

/-- The failure the backend's rebase pull raises in the C5 scenario. -/
def pullFailErr : GitError := ⟨"Command failed", none, "CONFLICT (content)", ""⟩

/-- Backend for C5: clean but one commit behind; the rebase pull fails and
leaves an unmerged path, so the conflict probe answers `a.md` once the
pull command appears in the trace. -/
def c5Backend : Backend := fun tr cmd =>
  if cmd = "diff --name-only --diff-filter=U" then
    (if tr.contains "pull origin main --rebase" then Except.ok ⟨"a.md", ""⟩
     else Except.ok ⟨"", ""⟩)
  else if cmd = "remote" then Except.ok ⟨"origin\n", ""⟩
  else if cmd = "status --porcelain=v1 --branch" then
    Except.ok ⟨"## main...origin/main [behind 1]", ""⟩
  else if cmd = "rev-parse --abbrev-ref HEAD" then Except.ok ⟨"main\n", ""⟩
  else if cmd = "pull origin main --rebase" then Except.error pullFailErr
  else Except.ok ⟨"", ""⟩

/-- Claim C5, counterexample: on the pull-reported-conflict abort the code
*does* record `lastSyncResult` (here it changes from `none` to the
conflict verdict), refuting the claim that both completion fields stay
unchanged on every early abort; only `lastSyncTime` stays unchanged. -/
theorem c5_counterexample :
    (SyncManager.sync c5Backend 42 "m" ⟨false, none, none, []⟩ []).1 =
      Except.ok ⟨false, "Merge conflicts after pull", none, none, some ["a.md"]⟩ ∧
    ((SyncManager.sync c5Backend 42 "m" ⟨false, none, none, []⟩ []).2.1).lastSyncResult =
      some ⟨false, "Merge conflicts after pull", none, none, some ["a.md"]⟩ ∧
    ((SyncManager.sync c5Backend 42 "m" ⟨false, none, none, []⟩ []).2.1).lastSyncResult ≠
      (⟨false, none, none, []⟩ : SyncState).lastSyncResult ∧
    ((SyncManager.sync c5Backend 42 "m" ⟨false, none, none, []⟩ []).2.1).lastSyncTime =
      (⟨false, none, none, []⟩ : SyncState).lastSyncTime := by
  refine ⟨rfl, rfl, by decide, rfl⟩

/-- Claim C5 (amended): on the busy, unavailable-backend, not-a-repository
and pre-existing-conflict aborts both `lastSyncTime` and `lastSyncResult`
stay unchanged; on the pull-reported-conflict abort `lastSyncTime` stays
unchanged but `lastSyncResult` is recorded as the conflict verdict (only
the successful commit-and-push path records `lastSyncTime`). -/
theorem c5_record_on_aborts :
    (∀ (b : Backend) (now : Nat) (msg : String) (s : SyncState) (tr : List String),
      s.syncLock = true →
      SyncManager.sync b now msg s tr = (Except.ok SyncManager.busyResult, s, tr)) ∧
    (∀ (b : Backend) (now : Nat) (msg : String) (s : SyncState) (tr : List String)
        (ev : GitError), s.syncLock = false →
      b tr "--version" = Except.error ev →
      ((SyncManager.sync b now msg s tr).2.1).lastSyncTime = s.lastSyncTime ∧
      ((SyncManager.sync b now msg s tr).2.1).lastSyncResult = s.lastSyncResult) ∧
    (∀ (b : Backend) (now : Nat) (msg : String) (s : SyncState) (tr : List String)
        (rv : ExecResult) (er : GitError), s.syncLock = false →
      b tr "--version" = Except.ok rv →
      b (tr ++ ["--version"]) "rev-parse --is-inside-work-tree" = Except.error er →
      ((SyncManager.sync b now msg s tr).2.1).lastSyncTime = s.lastSyncTime ∧
      ((SyncManager.sync b now msg s tr).2.1).lastSyncResult = s.lastSyncResult) ∧
    (∀ (b : Backend) (now : Nat) (msg : String) (s : SyncState) (tr : List String)
        (rv rr rc : ExecResult), s.syncLock = false →
      b tr "--version" = Except.ok rv →
      b (tr ++ ["--version"]) "rev-parse --is-inside-work-tree" = Except.ok rr →
      b (tr ++ ["--version", "rev-parse --is-inside-work-tree"])
        "diff --name-only --diff-filter=U" = Except.ok rc →
      (trimStr rc.stdout).length > 0 →
      ((SyncManager.sync b now msg s tr).2.1).lastSyncTime = s.lastSyncTime ∧
      ((SyncManager.sync b now msg s tr).2.1).lastSyncResult = s.lastSyncResult) ∧
    (∀ (b : Backend) (now : Nat) (msg : String) (s : SyncState) (tr tr4 : List String)
        (rv rr rc : ExecResult) (pr : PullResult) (s2 : SyncState), s.syncLock = false →
      b tr "--version" = Except.ok rv →
      b (tr ++ ["--version"]) "rev-parse --is-inside-work-tree" = Except.ok rr →
      b (tr ++ ["--version", "rev-parse --is-inside-work-tree"])
        "diff --name-only --diff-filter=U" = Except.ok rc →
      (trimStr rc.stdout).length = 0 →
      SyncManager.pullOnly b
        ⟨true, s.lastSyncTime, s.lastSyncResult,
         s.events ++ [(SyncStatus.pulling, "Pulling changes...")]⟩
        (tr ++ ["--version", "rev-parse --is-inside-work-tree",
          "diff --name-only --diff-filter=U"]) = (Except.ok pr, s2, tr4) →
      pr.success = false →
      pr.conflicts.length > 0 →
      s2.lastSyncTime = s.lastSyncTime →
      ((SyncManager.sync b now msg s tr).2.1).lastSyncTime = s.lastSyncTime ∧
      ((SyncManager.sync b now msg s tr).2.1).lastSyncResult =
        some ⟨false, "Merge conflicts after pull", none, none, some pr.conflicts⟩) := by
  refine ⟨?_, ?_, ?_, ?_, ?_⟩
  · intro b now msg s tr hlock
    simp [SyncManager.sync, hlock]
  · intro b now msg s tr ev hlock hv
    simp [SyncManager.sync, SyncManager.syncTry, SyncManager.syncCatch,
      SyncManager.checkGitStatus, GitExecutor.isGitAvailable, GitExecutor.isRepo,
      GitExecutor.hasConflicts, SM.tryCatch, SM.bind, SM.lift, SM.pure, SM.throw,
      updateStatus, setLastResult, setLastTime,
      M.tryCatch, M.bind, M.pure, M.throw, runCmd, hlock, hv]
  · intro b now msg s tr rv er hlock hv hr
    simp [SyncManager.sync, SyncManager.syncTry, SyncManager.syncCatch,
      SyncManager.checkGitStatus, GitExecutor.isGitAvailable, GitExecutor.isRepo,
      GitExecutor.hasConflicts, SM.tryCatch, SM.bind, SM.lift, SM.pure, SM.throw,
      updateStatus, setLastResult, setLastTime,
      M.tryCatch, M.bind, M.pure, M.throw, runCmd, hlock, hv, hr]
  · intro b now msg s tr rv rr rc hlock hv hr hc hcc
    simp [SyncManager.sync, SyncManager.syncTry, SyncManager.syncCatch,
      SyncManager.checkGitStatus, GitExecutor.isGitAvailable, GitExecutor.isRepo,
      GitExecutor.hasConflicts, SM.tryCatch, SM.bind, SM.lift, SM.pure, SM.throw,
      updateStatus, setLastResult, setLastTime,
      M.tryCatch, M.bind, M.pure, M.throw, runCmd, hlock, hv, hr, hc, hcc]
  · intro b now msg s tr tr4 rv rr rc pr s2 hlock hv hr hc hni hpo hps hpc hs2
    simp [SyncManager.sync, SyncManager.syncTry, SyncManager.syncCatch,
      SyncManager.checkGitStatus, GitExecutor.isGitAvailable, GitExecutor.isRepo,
      GitExecutor.hasConflicts, SM.tryCatch, SM.bind, SM.lift, SM.pure, SM.throw,
      updateStatus, setLastResult, setLastTime,
      M.tryCatch, M.bind, M.pure, M.throw, runCmd, hlock, hv, hr, hc, hni, hpo, hps, hpc, hs2]

/-- Backend without a git binary: the version probe fails. -/
def noGitBackend : Backend := fun _ cmd =>
  if cmd = "--version" then Except.error ⟨"not found", some "ENOENT", "", ""⟩
  else Except.ok ⟨"", ""⟩

/-- The failure of `rev-parse --is-inside-work-tree` outside a repository. -/
def notRepoErr : GitError :=
  ⟨"exit 128", none, "fatal: not a git repository", ""⟩

/-- Backend with git available but no repository. -/
def notRepoBackend : Backend := fun _ cmd =>
  if cmd = "rev-parse --is-inside-work-tree" then Except.error notRepoErr
  else Except.ok ⟨"", ""⟩

/-- Witness for the amended C5: all five abort shapes at concrete
backends. -/
theorem c5_record_on_aborts_witness :
    SyncManager.sync okBackend 7 "m" lockedState [] =
      (Except.ok SyncManager.busyResult, lockedState, []) ∧
    ((SyncManager.sync noGitBackend 7 "m" ⟨false, some 1, none, []⟩ []).2.1).lastSyncTime = some 1 ∧
    ((SyncManager.sync notRepoBackend 7 "m" ⟨false, some 2, none, []⟩ []).2.1).lastSyncResult = none ∧
    ((SyncManager.sync conflictedBackend 7 "m" ⟨false, some 3, none, []⟩ []).2.1).lastSyncTime = some 3 ∧
    ((SyncManager.sync c5Backend 42 "m" ⟨false, some 4, none, []⟩ []).2.1).lastSyncTime = some 4 := by
  refine ⟨?_, ?_, ?_, ?_, ?_⟩
  · exact c5_record_on_aborts.1 okBackend 7 "m" lockedState [] rfl
  · exact (c5_record_on_aborts.2.1 noGitBackend 7 "m" ⟨false, some 1, none, []⟩ []
      ⟨"not found", some "ENOENT", "", ""⟩ rfl rfl).1
  · exact (c5_record_on_aborts.2.2.1 notRepoBackend 7 "m" ⟨false, some 2, none, []⟩ []
      ⟨"", ""⟩ notRepoErr rfl rfl rfl).2
  · exact (c5_record_on_aborts.2.2.2.1 conflictedBackend 7 "m" ⟨false, some 3, none, []⟩ []
      ⟨"", ""⟩ ⟨"", ""⟩ ⟨"a.md", ""⟩ rfl rfl rfl rfl (by decide)).1
  · exact (c5_record_on_aborts.2.2.2.2 c5Backend 42 "m" ⟨false, some 4, none, []⟩ []
      ["--version", "rev-parse --is-inside-work-tree", "diff --name-only --diff-filter=U",
       "remote", "remote", "fetch origin", "status --porcelain=v1 --branch",
       "rev-parse --abbrev-ref HEAD", "remote", "remote", "fetch origin",
       "status --porcelain=v1 --branch", "pull origin main --rebase",
       "diff --name-only --diff-filter=U", "diff --name-only --diff-filter=U"]
      ⟨"", ""⟩ ⟨"", ""⟩ ⟨"", ""⟩ ⟨false, "Merge conflicts detected", [], ["a.md"]⟩
      ⟨true, some 4, none, [(SyncStatus.pulling, "Pulling changes..."),
        (SyncStatus.pulling, "Pulling changes...")]⟩
      rfl rfl rfl rfl rfl (by rfl) rfl (by decide) rfl).1
